import Mathlib

/-!
Verification development for the Computer-Use subsystem of the
`max-doc-ai` documentation-automation toolkit.

The definitions below are a shallow embedding of
`scripts/screenshot/computer_use_tools.py` (the tool executor) and
`scripts/screenshot/computer_use_client.py` (the agent-loop controller).
Pure computations are translated directly; desktop side effects
(mouse motion, keystrokes, sleeps) and the PNG/base64 byte-level codec
are elided or kept opaque, as noted at each definition.
-/

namespace ComputerUse

/-- Clamp an integer to the interval `[lo, hi]`, written exactly as the
source's `max(lo, min(v, hi))`. -/
def clampInt (v lo hi : Int) : Int :=
  max lo (min v hi)

/-- Embedding of `ComputerUseTool._scale_coordinates`
(`computer_use_tools.py` lines 352-381).

The Python code returns `(x, y)` unchanged when pyautogui is not
importable (`avail = false`).  Otherwise it computes
`scale_x = screen_width / display_width` (real division),
`scaled_x = int(x * scale_x)` — Python's `int()` truncates toward zero —
and clamps with `max(0, min(scaled_x, screen_width - 1))`; likewise for
`y`.  Exact rational arithmetic stands in for CPython binary64 floats;
truncation toward zero of the rational `x * screenW / displayW` is
`Int.tdiv (x * screenW) displayW` for a positive divisor. -/
def scale_coordinates (avail : Bool) (displayW displayH screenW screenH : Nat)
    (x y : Int) : Int × Int :=
  if !avail then (x, y)
  else
    let scaled_x := (x * (screenW : Int)).tdiv (displayW : Int)
    let scaled_y := (y * (screenH : Int)).tdiv (displayH : Int)
    (clampInt scaled_x 0 ((screenW : Int) - 1),
     clampInt scaled_y 0 ((screenH : Int) - 1))

/-- The coordinate-scaling formula exactly as claim C1 states it:
`round(virtual_coord * real_dimension / virtual_dimension)`, each
component clamped to `[0, real_dimension - 1]`. -/
def scale_spec_round (displayW displayH screenW screenH : Nat)
    (x y : Int) : Int × Int :=
  (clampInt (round ((x : ℚ) * (screenW : ℚ) / (displayW : ℚ))) 0 ((screenW : Int) - 1),
   clampInt (round ((y : ℚ) * (screenH : ℚ) / (displayH : ℚ))) 0 ((screenH : Int) - 1))

/-- Truncation of a rational toward zero, the semantics of Python's
`int()` applied to a real number. -/
def ratTrunc (q : ℚ) : Int :=
  if 0 ≤ q then ⌊q⌋ else -⌊-q⌋

/-- The coordinate-scaling formula as amended: truncation toward zero of
`virtual_coord * real_dimension / virtual_dimension`, each component
clamped to `[0, real_dimension - 1]`. -/
def scale_spec_trunc (displayW displayH screenW screenH : Nat)
    (x y : Int) : Int × Int :=
  (clampInt (ratTrunc ((x : ℚ) * (screenW : ℚ) / (displayW : ℚ))) 0 ((screenW : Int) - 1),
   clampInt (ratTrunc ((y : ℚ) * (screenH : ℚ) / (displayH : ℚ))) 0 ((screenH : Int) - 1))

/-- A captured image, reduced to its pixel dimensions.  Pixel contents
play no role in any verified property; the PIL contract used by the
source is that `Image.resize((w, h))` returns an image of size `(w, h)`. -/
structure Image where
  width : Nat
  height : Nat
deriving Repr, DecidableEq

/-- Parameter record for a tool action, the typed counterpart of the
`params` dict handed to `ComputerUseTool.execute_action`.  Each field
models one key the handlers read with `params.get(key, default)`; an
absent key is `none`. -/
structure Params where
  action : Option String := none
  coordinate : Option (List Int) := none
  text : Option String := none
  key : Option String := none
  scroll_direction : Option String := none
  scroll_amount : Option Int := none
  wait_duration_ms : Option Int := none
deriving Repr, DecidableEq, Inhabited

/-- The host environment the executor runs against: whether pyautogui
imported (`PYAUTOGUI_AVAILABLE`), the real screen size
(`pyautogui.size()`), the outcome of `ImageGrab.grab()` (an exception
maps to `Except.error` with its message), and the PNG/base64 encoder
(`img.save(buffer, "PNG")` + `b64encode`), kept opaque as an arbitrary
function from images to strings. -/
structure Env where
  pyautogui_available : Bool
  screen_width : Nat
  screen_height : Nat
  grab : Except String Image
  encode : Image → String

/-- Configuration of `ComputerUseTool`: the virtual display advertised
to the model (`display_width`, `display_height`). -/
structure ComputerUseTool where
  display_width : Nat := 1280
  display_height : Nat := 800
deriving Repr, DecidableEq

/-- The image whose encoding `_screenshot` returns
(`computer_use_tools.py` lines 103-110): the raw capture is resized to
the configured virtual dimensions whenever its size differs from them. -/
def screenshot_image (tool : ComputerUseTool) (grabbed : Image) : Image :=
  if (grabbed.width, grabbed.height) ≠ (tool.display_width, tool.display_height) then
    { width := tool.display_width, height := tool.display_height }
  else grabbed

/-- Embedding of `ComputerUseTool._screenshot` (lines 91-120): capture,
resize when needed, encode; any exception is wrapped as
`RuntimeError("Screenshot capture failed: ...")`. -/
def _screenshot (env : Env) (tool : ComputerUseTool) (_params : Params) :
    Except String String :=
  match env.grab with
  | .error e => .error ("Screenshot capture failed: " ++ e)
  | .ok img => .ok ("data:image/png;base64," ++ env.encode (screenshot_image tool img))

/-- Embedding of `ComputerUseTool._click` (lines 122-150).  The
`pyautogui.click` call and the 0.3 s settle delay are side effects with
no value; the scaled coordinate is computed and discarded here exactly
as the return string ignores it in the source. -/
def _click (env : Env) (tool : ComputerUseTool) (params : Params) :
    Except String String :=
  if !env.pyautogui_available then .ok "Click simulated (pyautogui not available)"
  else
    match params.coordinate.getD [] with
    | [x, y] =>
      let _ := scale_coordinates true tool.display_width tool.display_height
        env.screen_width env.screen_height x y
      .ok ("Clicked at (" ++ toString x ++ ", " ++ toString y ++ ")")
    | c => .error ("Invalid coordinate: " ++ toString c)

/-- Embedding of `ComputerUseTool._type_text` (lines 152-172).  The
keystroke emission `pyautogui.write(text, interval=0.05)` is a side
effect; the returned confirmation echoes `text[:50]`, with `"..."`
appended when the text is longer than 50 characters. -/
def _type_text (env : Env) (_tool : ComputerUseTool) (params : Params) :
    Except String String :=
  if !env.pyautogui_available then .ok "Text typing simulated (pyautogui not available)"
  else
    let text := params.text.getD ""
    if text = "" then .error "No text provided to type"
    else .ok ("Typed: " ++ text.take 50 ++ (if 50 < text.length then "..." else ""))

/-- Embedding of `ComputerUseTool._press_key` (lines 174-198).  Whether
the key string contains `+` only selects between the `hotkey` and
`press` side effects; the returned string is the same either way. -/
def _press_key (env : Env) (_tool : ComputerUseTool) (params : Params) :
    Except String String :=
  if !env.pyautogui_available then .ok "Key press simulated (pyautogui not available)"
  else
    let key := params.key.getD ""
    if key = "" then .error "No key provided"
    else .ok ("Pressed key: " ++ key)

/-- Embedding of `ComputerUseTool._mouse_move` (lines 200-222). -/
def _mouse_move (env : Env) (tool : ComputerUseTool) (params : Params) :
    Except String String :=
  if !env.pyautogui_available then .ok "Mouse move simulated (pyautogui not available)"
  else
    match params.coordinate.getD [] with
    | [x, y] =>
      let _ := scale_coordinates true tool.display_width tool.display_height
        env.screen_width env.screen_height x y
      .ok ("Moved mouse to (" ++ toString x ++ ", " ++ toString y ++ ")")
    | c => .error ("Invalid coordinate: " ++ toString c)

/-- Embedding of `ComputerUseTool._scroll` (lines 224-254).  The default
coordinate is the virtual display's centre; direction `down` negates the
magnitude before the (elided) `pyautogui.scroll` side effect.  A
coordinate list that is not a pair raises at the `x, y = coordinate`
unpacking in Python; that exception's message is abbreviated here. -/
def _scroll (env : Env) (tool : ComputerUseTool) (params : Params) :
    Except String String :=
  if !env.pyautogui_available then .ok "Scroll simulated (pyautogui not available)"
  else
    let coordinate := params.coordinate.getD
      [(tool.display_width / 2 : Nat), (tool.display_height / 2 : Nat)]
    let direction := params.scroll_direction.getD "down"
    let amount := params.scroll_amount.getD 3
    match coordinate with
    | [x, y] =>
      let _ := scale_coordinates true tool.display_width tool.display_height
        env.screen_width env.screen_height x y
      let scroll_amount := if direction = "down" then -amount else amount
      let _ := scroll_amount * 100
      .ok ("Scrolled " ++ direction ++ " by " ++ toString amount)
    | c => .error ("cannot unpack coordinate: " ++ toString c)

/-- Decimal rendering of `ms / 1000.0` as CPython's `str` produces for
the exactly-representable short cases (`1000 ↦ "1.0"`, `500 ↦ "0.5"`,
`1234 ↦ "1.234"`); negative durations are outside the modelled range. -/
def msAsSeconds (ms : Int) : String :=
  let q := ms / 1000
  let r := (ms % 1000).toNat
  let ds := ((toString (1000 + r)).drop 1).toList
  let trimmed := (ds.reverse.dropWhile (· == '0')).reverse
  toString q ++ "." ++ (if trimmed.isEmpty then "0" else String.mk trimmed)

/-- Embedding of `ComputerUseTool._wait` (lines 256-271).  The
`time.sleep` is a side effect; note the handler does not consult
pyautogui availability. -/
def _wait (_env : Env) (_tool : ComputerUseTool) (params : Params) :
    Except String String :=
  let duration_ms := params.wait_duration_ms.getD 1000
  .ok ("Waited " ++ msAsSeconds duration_ms ++ "s")

/-- Embedding of `ComputerUseTool._right_click` (lines 273-296). -/
def _right_click (env : Env) (tool : ComputerUseTool) (params : Params) :
    Except String String :=
  if !env.pyautogui_available then .ok "Right click simulated (pyautogui not available)"
  else
    match params.coordinate.getD [] with
    | [x, y] =>
      let _ := scale_coordinates true tool.display_width tool.display_height
        env.screen_width env.screen_height x y
      .ok ("Right clicked at (" ++ toString x ++ ", " ++ toString y ++ ")")
    | c => .error ("Invalid coordinate: " ++ toString c)

/-- Embedding of `ComputerUseTool._double_click` (lines 298-321). -/
def _double_click (env : Env) (tool : ComputerUseTool) (params : Params) :
    Except String String :=
  if !env.pyautogui_available then .ok "Double click simulated (pyautogui not available)"
  else
    match params.coordinate.getD [] with
    | [x, y] =>
      let _ := scale_coordinates true tool.display_width tool.display_height
        env.screen_width env.screen_height x y
      .ok ("Double clicked at (" ++ toString x ++ ", " ++ toString y ++ ")")
    | c => .error ("Invalid coordinate: " ++ toString c)

/-- Embedding of `ComputerUseTool._click_drag` (lines 323-350). -/
def _click_drag (env : Env) (tool : ComputerUseTool) (params : Params) :
    Except String String :=
  if !env.pyautogui_available then .ok "Click drag simulated (pyautogui not available)"
  else
    match params.coordinate.getD [] with
    | [x, y] =>
      let _ := scale_coordinates true tool.display_width tool.display_height
        env.screen_width env.screen_height x y
      .ok ("Dragged to (" ++ toString x ++ ", " ++ toString y ++ ")")
    | c => .error ("Invalid coordinate: " ++ toString c)

/-- The `action_map` dict of `ComputerUseTool.execute_action`
(lines 69-80): a lookup from action name to handler. -/
def action_map (env : Env) (tool : ComputerUseTool) (action : String) :
    Option (Params → Except String String) :=
  match action with
  | "screenshot" => some (_screenshot env tool)
  | "left_click" => some (_click env tool)
  | "type" => some (_type_text env tool)
  | "key" => some (_press_key env tool)
  | "mouse_move" => some (_mouse_move env tool)
  | "scroll" => some (_scroll env tool)
  | "wait" => some (_wait env tool)
  | "right_click" => some (_right_click env tool)
  | "double_click" => some (_double_click env tool)
  | "left_click_drag" => some (_click_drag env tool)
  | _ => none

/-- The ten action kinds `execute_action` recognises. -/
def knownActionKinds : List String :=
  ["screenshot", "left_click", "type", "key", "mouse_move",
   "scroll", "wait", "right_click", "double_click", "left_click_drag"]

/-- Embedding of `ComputerUseTool.execute_action` (lines 54-89): dispatch
through `action_map`, `ValueError("Unknown action: ...")` when the name
is unrecognised, and any handler exception re-raised as
`RuntimeError("Failed to execute {action}: {cause}")`. -/
def execute_action (env : Env) (tool : ComputerUseTool) (action : String)
    (params : Params) : Except String String :=
  match action_map env tool action with
  | none => .error ("Unknown action: " ++ action)
  | some handler =>
    match handler params with
    | .ok r => .ok r
    | .error e => .error ("Failed to execute " ++ action ++ ": " ++ e)

/-- A content block of a model response turn (`response.content`): either
a text block or a tool-use block.  A tool-use block carries the
protocol-assigned `id` and the `input` record; the action name lives
inside `input` — the client reads it with `block.input.get("action",
"unknown")`. -/
inductive Block where
  | text (s : String)
  | toolUse (id : String) (input : Params)
deriving Repr, DecidableEq

/-- Whether a block is a tool-use block (`block.type == "tool_use"`). -/
def Block.isToolUse : Block → Bool
  | .toolUse _ _ => true
  | .text _ => false

/-- One `tool_result` entry the client sends back
(`computer_use_client.py` lines 150-164). -/
structure ToolResult where
  tool_use_id : String
  content : String
  is_error : Bool := false
deriving Repr, DecidableEq

/-- The content of one conversation turn: the seed user turn is a plain
string, an assistant turn carries the model's blocks verbatim, and a
tool-result user turn carries the list of results. -/
inductive MsgContent where
  | ofText (s : String)
  | ofBlocks (bs : List Block)
  | ofResults (rs : List ToolResult)
deriving Repr, DecidableEq

/-- One turn of the conversation (`messages` list entries). -/
structure Message where
  role : String
  content : MsgContent
deriving Repr, DecidableEq

/-- The dict `ComputerUseClient.execute_task` returns (lines 176-196). -/
structure TaskResult where
  messages : List Message
  screenshots : List String
  iterations : Nat
  success : Bool
deriving Repr, DecidableEq

/-- The model-call boundary: the Claude API call of lines 108-118,
abstracted as a function from the conversation to a response turn.  An
`Except.error` is an API exception, which `execute_task` re-raises. -/
def Model : Type := List Message → Except String (List Block)

/-- The executor boundary: `tool_executor.execute_action(action, params)`
with an exception mapped to `Except.error`. -/
def Executor : Type := String → Params → Except String String

/-- Processing of a single response block by the loop body of
`execute_task` (lines 130-164): a text block contributes nothing; for a
tool-use block the executor runs on `(input.action, input)`, a success
becomes a plain tool result — appended to the screenshot list when the
action is `"screenshot"` and the result is truthy (a non-empty string) —
and an executor exception becomes an `is_error` tool result carrying
`"Error: "` plus the exception message. -/
def processBlock (executor : Executor) (b : Block) :
    List ToolResult × List String :=
  match b with
  | .text _ => ([], [])
  | .toolUse id input =>
    let action := input.action.getD "unknown"
    match executor action input with
    | .ok result =>
      ([{ tool_use_id := id, content := result }],
       if action = "screenshot" ∧ result ≠ "" then [result] else [])
    | .error e =>
      ([{ tool_use_id := id, content := "Error: " ++ e, is_error := true }], [])

/-- Sequential left-to-right processing of all blocks of one response
turn, accumulating the `tool_results` list and the screenshots appended
during this turn, in request order. -/
def processBlocks (executor : Executor) : List Block → List ToolResult × List String
  | [] => ([], [])
  | b :: bs =>
    let hd := processBlock executor b
    let tl := processBlocks executor bs
    (hd.1 ++ tl.1, hd.2 ++ tl.2)

/-- The `while iterations < max_iterations` loop of `execute_task`
(lines 100-196), phrased with explicit fuel: since `iterations` starts
at 0 and increases by exactly 1 per pass, the Python guard admits
exactly `max(0, max_iterations - iterations)` further passes, which is
the `fuel` argument here.  Each pass calls the model (an API exception
propagates), appends the assistant turn verbatim, executes the requested
actions in order, and either returns successfully when no tool use was
requested or appends the tool-result turn and continues.  Exhausted fuel
is the `while` guard failing: the partial transcript and screenshots are
returned with `success = false`. -/
def loopAux (model : Model) (executor : Executor) :
    Nat → Nat → List Message → List String → Except String TaskResult
  | 0, iterations, messages, screenshots =>
    .ok { messages := messages, screenshots := screenshots,
          iterations := iterations, success := false }
  | fuel + 1, iterations, messages, screenshots =>
    let iterations := iterations + 1
    match model messages with
    | .error e => .error e
    | .ok content =>
      let messages := messages ++ [{ role := "assistant", content := .ofBlocks content }]
      let step := processBlocks executor content
      let screenshots := screenshots ++ step.2
      if content.any Block.isToolUse then
        loopAux model executor fuel iterations
          (messages ++ [{ role := "user", content := .ofResults step.1 }]) screenshots
      else
        .ok { messages := messages, screenshots := screenshots,
              iterations := iterations, success := true }

/-- Embedding of `ComputerUseClient.execute_task` (lines 58-196): a
missing tool executor raises immediately; otherwise the conversation is
seeded with the task prompt as a user turn and the loop runs with fuel
`max(0, max_iterations)`.  The system prompt and the verbose printing
affect no returned value and are elided. -/
def execute_task (model : Model) (tool_executor : Option Executor)
    (task_prompt : String) (max_iterations : Int) : Except String TaskResult :=
  match tool_executor with
  | none => .error "Tool executor not set. Call set_tool_executor() first."
  | some executor =>
    loopAux model executor max_iterations.toNat 0
      [{ role := "user", content := .ofText task_prompt }] []

/-- The eight action kinds that degrade to a no-op when pyautogui is
missing (all kinds except `screenshot` and `wait`). -/
def degradedActions : List String :=
  ["left_click", "type", "key", "mouse_move", "scroll",
   "right_click", "double_click", "left_click_drag"]

/-- The confirmation string each degraded action returns when pyautogui
is not available, verbatim from the handlers. -/
def simulatedMessage (action : String) : String :=
  match action with
  | "left_click" => "Click simulated (pyautogui not available)"
  | "type" => "Text typing simulated (pyautogui not available)"
  | "key" => "Key press simulated (pyautogui not available)"
  | "mouse_move" => "Mouse move simulated (pyautogui not available)"
  | "scroll" => "Scroll simulated (pyautogui not available)"
  | "right_click" => "Right click simulated (pyautogui not available)"
  | "double_click" => "Double click simulated (pyautogui not available)"
  | "left_click_drag" => "Click drag simulated (pyautogui not available)"
  | _ => ""

/-- Concrete host without desktop automation, used to evaluate theorems
on explicit inputs. -/
def envNoAuto : Env :=
  { pyautogui_available := false, screen_width := 1920, screen_height := 1080,
    grab := .error "no display", encode := fun _ => "" }

/-- Concrete host with desktop automation available. -/
def envAuto : Env :=
  { pyautogui_available := true, screen_width := 1920, screen_height := 1080,
    grab := .error "no display", encode := fun _ => "" }

/-- Concrete host whose screen grab yields a 50 by 60 image. -/
def envGrab : Env :=
  { pyautogui_available := true, screen_width := 100, screen_height := 100,
    grab := .ok { width := 50, height := 60 }, encode := fun _ => "X" }

/-- A 20 by 30 virtual display configuration. -/
def toolSmall : ComputerUseTool := { display_width := 20, display_height := 30 }

/-- A model that answers every conversation with a plain text turn and
never requests an action. -/
def modelNoActions : Model := fun _ => .ok [Block.text "done"]

/-- A model that requests one screenshot on every turn. -/
def modelShotEvery : Model :=
  fun _ => .ok [Block.toolUse "tu1" { action := some "screenshot" }]

/-- A model that requests one screenshot on the first turn (seed
conversation of length 1) and stops afterwards. -/
def modelShotOnce : Model := fun msgs =>
  if msgs.length ≤ 1 then .ok [Block.toolUse "b1" { action := some "screenshot" }]
  else .ok []

/-- A model that requests a click on the first turn and, after seeing
the tool-result turn, stops requesting actions. -/
def modelClickThenStop : Model := fun msgs =>
  if msgs.length ≤ 1 then
    .ok [Block.toolUse "e1" { action := some "left_click", coordinate := some [1, 2] }]
  else .ok []

/-- An executor whose every action raises. -/
def executorFail : Executor := fun _ _ => .error "boom"

/-- An executor whose every action yields the non-empty string "IMG". -/
def executorShot : Executor := fun _ _ => .ok "IMG"

/-- Truncation toward zero of an exact integer quotient agrees with
`Int.tdiv`: for a positive natural divisor, Python's
`int(a / d)` is `a.tdiv d`. -/
theorem tdiv_eq_ratTrunc (a : Int) (d : Nat) (hd : 0 < d) :
    a.tdiv (d : Int) = ratTrunc ((a : ℚ) / (d : ℚ)) := by
  have hd0 : (0 : Int) ≤ (d : Int) := by positivity
  rcases le_or_lt 0 a with ha | ha
  · have hq : (0 : ℚ) ≤ (a : ℚ) / (d : ℚ) :=
      div_nonneg (by exact_mod_cast ha) (by positivity)
    rw [ratTrunc, if_pos hq, Rat.floor_intCast_div_natCast, Int.tdiv_eq_ediv ha hd0]
  · have hqlt : (a : ℚ) / (d : ℚ) < 0 := by
      apply div_neg_of_neg_of_pos
      · exact_mod_cast ha
      · exact_mod_cast hd
    rw [ratTrunc, if_neg (not_le.mpr hqlt)]
    have hcast : -((a : ℚ) / (d : ℚ)) = ((-a : ℤ) : ℚ) / (d : ℚ) := by
      push_cast
      ring
    rw [hcast, Rat.floor_intCast_div_natCast]
    have h1 : (-a).tdiv (d : Int) = (-a) / (d : Int) :=
      Int.tdiv_eq_ediv (by omega) hd0
    have h2 : (-a).tdiv (d : Int) = -(a.tdiv (d : Int)) := Int.neg_tdiv a d
    omega

/-- Claim C1 (corrected): with the automation backend available and all
dimensions positive, `_scale_coordinates` returns exactly the
truncation toward zero (Python `int()`, not `round`) of
`virtual_coord * real_dimension / virtual_dimension`, each component
then clamped to `[0, real_dimension - 1]` independently per axis. -/
theorem scale_coordinates_eq_trunc_spec (displayW displayH screenW screenH : Nat)
    (hdW : 0 < displayW) (hdH : 0 < displayH)
    (hsW : 0 < screenW) (hsH : 0 < screenH) (x y : Int) :
    scale_coordinates true displayW displayH screenW screenH x y =
      scale_spec_trunc displayW displayH screenW screenH x y := by
  have hx := tdiv_eq_ratTrunc (x * (screenW : Int)) displayW hdW
  have hy := tdiv_eq_ratTrunc (y * (screenH : Int)) displayH hdH
  have hx2 : (((x * (screenW : Int) : Int) : ℚ)) = (x : ℚ) * (screenW : ℚ) := by
    push_cast
    ring
  have hy2 : (((y * (screenH : Int) : Int) : ℚ)) = (y : ℚ) * (screenH : ℚ) := by
    push_cast
    ring
  rw [hx2] at hx
  rw [hy2] at hy
  simp only [scale_coordinates, scale_spec_trunc, Bool.not_true, Bool.false_eq_true,
    if_false, hx, hy]

/-- Claim C1 counterexample: at virtual size 3 by 3, real size 2 by 2
and virtual coordinate (1, 1), the code truncates
`1 * 2 / 3 = 0.666...` to `(0, 0)`, while the claimed
`round` formula gives `(1, 1)`. -/
theorem scale_coordinates_round_claim_false :
    scale_coordinates true 3 3 2 2 1 1 ≠ scale_spec_round 3 3 2 2 1 1 := by
  have h1 : scale_coordinates true 3 3 2 2 1 1 = (0, 0) := by decide
  have h2 : scale_spec_round 3 3 2 2 1 1 = (1, 1) := by
    have hr : round ((2 : ℚ) / (3 : ℚ)) = 1 := by
      rw [round_eq]
      norm_num
    simp [scale_spec_round, clampInt, hr]
  rw [h1, h2]
  decide

/-- Claim C1 witness: the corrected formula evaluated at the
counterexample's own input. -/
theorem scale_coordinates_eq_trunc_spec_witness :
    scale_coordinates true 3 3 2 2 1 1 = scale_spec_trunc 3 3 2 2 1 1 :=
  scale_coordinates_eq_trunc_spec 3 3 2 2 (by decide) (by decide) (by decide) (by decide) 1 1

/-- Claim C2: with the backend available and positive dimensions,
scaling (0, 0) yields (0, 0), scaling the virtual corner
(W-1, H-1) lands within `[0, W'-1] × [0, H'-1]`, and in general no
scaled coordinate leaves the real-screen bounds. -/
theorem scale_coordinates_bounds (displayW displayH screenW screenH : Nat)
    (hdW : 0 < displayW) (hdH : 0 < displayH)
    (hsW : 0 < screenW) (hsH : 0 < screenH) :
    scale_coordinates true displayW displayH screenW screenH 0 0 = (0, 0) ∧
    (0 ≤ (scale_coordinates true displayW displayH screenW screenH
        ((displayW : Int) - 1) ((displayH : Int) - 1)).1 ∧
     (scale_coordinates true displayW displayH screenW screenH
        ((displayW : Int) - 1) ((displayH : Int) - 1)).1 ≤ (screenW : Int) - 1 ∧
     0 ≤ (scale_coordinates true displayW displayH screenW screenH
        ((displayW : Int) - 1) ((displayH : Int) - 1)).2 ∧
     (scale_coordinates true displayW displayH screenW screenH
        ((displayW : Int) - 1) ((displayH : Int) - 1)).2 ≤ (screenH : Int) - 1) ∧
    ∀ x y : Int,
      0 ≤ (scale_coordinates true displayW displayH screenW screenH x y).1 ∧
      (scale_coordinates true displayW displayH screenW screenH x y).1 ≤ (screenW : Int) - 1 ∧
      0 ≤ (scale_coordinates true displayW displayH screenW screenH x y).2 ∧
      (scale_coordinates true displayW displayH screenW screenH x y).2 ≤ (screenH : Int) - 1 := by
  have hbounds : ∀ x y : Int,
      0 ≤ (scale_coordinates true displayW displayH screenW screenH x y).1 ∧
      (scale_coordinates true displayW displayH screenW screenH x y).1 ≤ (screenW : Int) - 1 ∧
      0 ≤ (scale_coordinates true displayW displayH screenW screenH x y).2 ∧
      (scale_coordinates true displayW displayH screenW screenH x y).2 ≤ (screenH : Int) - 1 := by
    intro x y
    have h1 : (1 : Int) ≤ (screenW : Int) := by exact_mod_cast hsW
    have h2 : (1 : Int) ≤ (screenH : Int) := by exact_mod_cast hsH
    simp only [scale_coordinates, Bool.not_true, Bool.false_eq_true, if_false, clampInt]
    omega
  refine ⟨?_, ⟨(hbounds _ _).1, (hbounds _ _).2.1, (hbounds _ _).2.2.1, (hbounds _ _).2.2.2⟩,
    hbounds⟩
  have h1 : (1 : Int) ≤ (screenW : Int) := by exact_mod_cast hsW
  have h2 : (1 : Int) ≤ (screenH : Int) := by exact_mod_cast hsH
  simp only [scale_coordinates, Bool.not_true, Bool.false_eq_true, if_false, clampInt,
    Int.zero_mul, Int.zero_tdiv]
  rw [Prod.mk.injEq]
  omega

/-- Claim C2 witness: the bounds evaluated at virtual 1280 by 800 and
real 1920 by 1080, with the general bound also instantiated at
(640, 400). -/
theorem scale_coordinates_bounds_witness :
    scale_coordinates true 1280 800 1920 1080 0 0 = (0, 0) ∧
    0 ≤ (scale_coordinates true 1280 800 1920 1080 640 400).1 ∧
    (scale_coordinates true 1280 800 1920 1080 640 400).1 ≤ (1920 : Int) - 1 :=
  ⟨(scale_coordinates_bounds 1280 800 1920 1080 (by decide) (by decide) (by decide)
      (by decide)).1,
   ((scale_coordinates_bounds 1280 800 1920 1080 (by decide) (by decide) (by decide)
      (by decide)).2.2 640 400).1,
   ((scale_coordinates_bounds 1280 800 1920 1080 (by decide) (by decide) (by decide)
      (by decide)).2.2 640 400).2.1⟩

/-- A response turn without tool-use blocks produces no tool results and
no screenshots. -/
theorem processBlocks_no_toolUse (executor : Executor) (bs : List Block)
    (h : bs.any Block.isToolUse = false) :
    processBlocks executor bs = ([], []) := by
  induction bs with
  | nil => rfl
  | cons b bs ih =>
    simp only [List.any_cons, Bool.or_eq_false_iff] at h
    cases b with
    | text s => simp [processBlocks, processBlock, ih h.2]
    | toolUse id input => simp [Block.isToolUse] at h

/-- Text blocks contribute nothing: processing a turn equals processing
only its tool-use blocks. -/
theorem processBlocks_filter_toolUse (executor : Executor) (bs : List Block) :
    processBlocks executor bs = processBlocks executor (bs.filter Block.isToolUse) := by
  induction bs with
  | nil => rfl
  | cons b bs ih =>
    cases b with
    | text s => simp [processBlocks, processBlock, List.filter_cons, Block.isToolUse, ih]
    | toolUse id input =>
      simp [processBlocks, List.filter_cons, Block.isToolUse, ih]

/-- Claim C10: with a tool executor bound and a non-positive iteration
budget, the `while` guard fails immediately: `execute_task` returns
`success = false`, `iterations = 0`, no screenshots, and the
conversation holds only the seed user turn — for every model, hence
without ever calling the model. -/
theorem execute_task_nonpositive_budget (model : Model) (executor : Executor)
    (task_prompt : String) (max_iterations : Int) (h : max_iterations ≤ 0) :
    execute_task model (some executor) task_prompt max_iterations =
      .ok { messages := [{ role := "user", content := .ofText task_prompt }],
            screenshots := [], iterations := 0, success := false } := by
  unfold execute_task
  rw [Int.toNat_of_nonpos h]
  rfl

/-- Claim C10 witness: budget 0, a model that would raise if called, an
executor that always raises. -/
theorem execute_task_nonpositive_budget_witness :
    execute_task (fun _ => .error "api down") (some executorFail) "do it" 0 =
      .ok { messages := [{ role := "user", content := .ofText "do it" }],
            screenshots := [], iterations := 0, success := false } :=
  execute_task_nonpositive_budget (fun _ => .error "api down") executorFail "do it" 0
    (by decide)

/-- Claim C3: with a budget of at least 1, if the model's first response
holds no tool-use block, `execute_task` terminates after exactly one
iteration with `success = true`, an empty screenshot list, and the
transcript consisting of the seed turn plus the model's turn. -/
theorem execute_task_no_actions (model : Model) (executor : Executor)
    (task_prompt : String) (max_iterations : Int) (hmax : 1 ≤ max_iterations)
    (bs : List Block)
    (hresp : model [{ role := "user", content := .ofText task_prompt }] = .ok bs)
    (hno : bs.any Block.isToolUse = false) :
    execute_task model (some executor) task_prompt max_iterations =
      .ok { messages := [{ role := "user", content := .ofText task_prompt },
                         { role := "assistant", content := .ofBlocks bs }],
            screenshots := [], iterations := 1, success := true } := by
  obtain ⟨n, hn⟩ : ∃ n, max_iterations.toNat = n + 1 :=
    ⟨max_iterations.toNat - 1, by omega⟩
  unfold execute_task
  rw [hn]
  simp only [loopAux]
  rw [hresp]
  simp [hno, processBlocks_no_toolUse executor bs hno]

/-- Claim C3 witness: a model that always answers with a plain text
block, run with budget 5. -/
theorem execute_task_no_actions_witness :
    execute_task modelNoActions (some executorFail) "capture the page" 5 =
      .ok { messages := [{ role := "user", content := .ofText "capture the page" },
                         { role := "assistant", content := .ofBlocks [Block.text "done"] }],
            screenshots := [], iterations := 1, success := true } :=
  execute_task_no_actions modelNoActions executorFail "capture the page" 5
    (by decide) [Block.text "done"] rfl rfl

/-- Invariant for claim C4: from any loop state, a model that requests
exactly one screenshot per turn whose execution succeeds non-emptily
drives the loop until the fuel runs out, adding one screenshot and two
turns per iteration and never succeeding. -/
theorem loopAux_always_screenshot (model : Model) (executor : Executor)
    (hmodel : ∀ msgs, ∃ bs, model msgs = .ok bs ∧
      ∃ id input, bs.filter Block.isToolUse = [Block.toolUse id input] ∧
        input.action = some "screenshot")
    (hexec : ∀ input : Params, input.action = some "screenshot" →
      ∃ s, executor "screenshot" input = .ok s ∧ s ≠ "") :
    ∀ fuel iterations messages screenshots,
      ∃ r, loopAux model executor fuel iterations messages screenshots = .ok r ∧
        r.success = false ∧ r.iterations = iterations + fuel ∧
        r.screenshots.length = screenshots.length + fuel ∧
        r.messages.length = messages.length + 2 * fuel := by
  intro fuel
  induction fuel with
  | zero =>
    intro iterations messages screenshots
    exact ⟨{ messages := messages, screenshots := screenshots,
             iterations := iterations, success := false },
      rfl, rfl, by simp, by simp, by simp⟩
  | succ n ih =>
    intro iterations messages screenshots
    obtain ⟨bs, hbs, id, input, hfilter, haction⟩ := hmodel messages
    obtain ⟨s, hs, hsne⟩ := hexec input haction
    have hpb : processBlocks executor bs =
        ([{ tool_use_id := id, content := s, is_error := false }], [s]) := by
      rw [processBlocks_filter_toolUse, hfilter]
      simp [processBlocks, processBlock, haction, hs, hsne]
    have hmem : Block.toolUse id input ∈ bs.filter Block.isToolUse := by
      rw [hfilter]
      exact List.mem_singleton_self _
    have hany : bs.any Block.isToolUse = true :=
      List.any_eq_true.mpr ⟨_, (List.mem_filter.mp hmem).1, (List.mem_filter.mp hmem).2⟩
    obtain ⟨r, hr, h1, h2, h3, h4⟩ := ih (iterations + 1)
      ((messages ++ [{ role := "assistant", content := .ofBlocks bs }]) ++
        [{ role := "user", content := .ofResults
            [{ tool_use_id := id, content := s, is_error := false }] }])
      (screenshots ++ [s])
    refine ⟨r, ?_, h1, by omega, ?_, ?_⟩
    · simp only [loopAux]
      rw [hbs]
      simp only [hpb, hany, if_true]
      exact hr
    · rw [h3]
      simp
      omega
    · rw [h4]
      simp
      omega

/-- Claim C4: with a budget of at least 1, a model that requests exactly
one screenshot per turn, each executing successfully with a non-empty
result, makes `execute_task` run the full budget: it returns
`success = false`, `iterations = max_iterations`, one screenshot per
iteration, and the transcript of all accumulated turns (seed plus two
turns per iteration). -/
theorem execute_task_always_screenshot (model : Model) (executor : Executor)
    (task_prompt : String) (max_iterations : Int) (hmax : 1 ≤ max_iterations)
    (hmodel : ∀ msgs, ∃ bs, model msgs = .ok bs ∧
      ∃ id input, bs.filter Block.isToolUse = [Block.toolUse id input] ∧
        input.action = some "screenshot")
    (hexec : ∀ input : Params, input.action = some "screenshot" →
      ∃ s, executor "screenshot" input = .ok s ∧ s ≠ "") :
    ∃ r, execute_task model (some executor) task_prompt max_iterations = .ok r ∧
      r.success = false ∧ (r.iterations : Int) = max_iterations ∧
      (r.screenshots.length : Int) = max_iterations ∧
      (r.messages.length : Int) = 1 + 2 * max_iterations := by
  obtain ⟨r, hr, h1, h2, h3, h4⟩ := loopAux_always_screenshot model executor hmodel hexec
    max_iterations.toNat 0 [{ role := "user", content := .ofText task_prompt }] []
  simp only [List.length_nil, List.length_cons, Nat.zero_add] at h2 h3 h4
  refine ⟨r, ?_, h1, ?_, ?_, ?_⟩
  · unfold execute_task
    exact hr
  · omega
  · omega
  · omega

/-- Claim C4 witness: the always-screenshot model with budget 2 and an
executor returning "IMG". -/
theorem execute_task_always_screenshot_witness :
    ∃ r, execute_task modelShotEvery (some executorShot) "navigate" 2 = .ok r ∧
      r.success = false ∧ (r.iterations : Int) = 2 ∧
      (r.screenshots.length : Int) = 2 ∧
      (r.messages.length : Int) = 1 + 2 * 2 :=
  execute_task_always_screenshot modelShotEvery executorShot "navigate" 2
    (by decide)
    (fun _ => ⟨[Block.toolUse "tu1" { action := some "screenshot" }], rfl,
      "tu1", { action := some "screenshot" }, rfl, rfl⟩)
    (fun input _ => ⟨"IMG", rfl, by decide⟩)

/-- Claim C5: an executor exception does not abort the loop.
`loopAux` is the loop body of `execute_task` (which starts it on the
seed conversation); a state with `iterations = k - 1` and
`fuel = max_iterations - (k - 1) ≥ 2` is the loop about to run iteration
`k` with `k < max_iterations`.  If the model requests one action there
and its execution raises `e`, the loop appends the error tool result
(`is_error = true`, content `"Error: " ++ e`) as a user turn, proceeds
to iteration `k + 1`, and — the model then answering without tool use —
returns `success = true`, with the error turn in the transcript and no
screenshot recorded for the failed action. -/
theorem loopAux_error_recovery (model : Model) (executor : Executor)
    (fuel iterations : Nat) (messages : List Message) (screenshots : List String)
    (hfuel : 2 ≤ fuel)
    (id : String) (input : Params) (e : String)
    (hresp : model messages = .ok [Block.toolUse id input])
    (hexec : executor (input.action.getD "unknown") input = .error e)
    (bs2 : List Block)
    (hresp2 : model (messages ++
      [{ role := "assistant", content := .ofBlocks [Block.toolUse id input] },
       { role := "user", content := .ofResults
          [{ tool_use_id := id, content := "Error: " ++ e, is_error := true }] }]) = .ok bs2)
    (hno2 : bs2.any Block.isToolUse = false) :
    ∃ r, loopAux model executor fuel iterations messages screenshots = .ok r ∧
      r.success = true ∧ r.iterations = iterations + 2 ∧
      r.screenshots = screenshots ∧
      ({ role := "user", content := MsgContent.ofResults
          [{ tool_use_id := id, content := "Error: " ++ e, is_error := true }] }
        : Message) ∈ r.messages := by
  obtain ⟨n, rfl⟩ : ∃ n, fuel = n + 2 := ⟨fuel - 2, by omega⟩
  have hpb : processBlocks executor [Block.toolUse id input] =
      ([{ tool_use_id := id, content := "Error: " ++ e, is_error := true }], []) := by
    simp [processBlocks, processBlock, hexec]
  have hpb2 := processBlocks_no_toolUse executor bs2 hno2
  refine ⟨⟨messages ++
      [⟨"assistant", .ofBlocks [Block.toolUse id input]⟩,
       ⟨"user", .ofResults [⟨id, "Error: " ++ e, true⟩]⟩,
       ⟨"assistant", .ofBlocks bs2⟩],
      screenshots, iterations + 2, true⟩, ?_, rfl, rfl, rfl, by simp⟩
  show loopAux model executor (n + 1 + 1) iterations messages screenshots = _
  simp only [loopAux]
  rw [hresp]
  simp only [hpb, Block.isToolUse, List.any_cons, List.any_nil, Bool.or_false, if_true]
  rw [List.append_assoc]
  have hresp2' : model (messages ++
      ([⟨"assistant", MsgContent.ofBlocks [Block.toolUse id input]⟩] ++
        [⟨"user", MsgContent.ofResults [⟨id, "Error: " ++ e, true⟩]⟩])) = .ok bs2 := by
    rw [← hresp2]
    congr 1
  rw [hresp2']
  simp [hno2, hpb2]

/-- Claim C5 witness: at the seed state (iteration 1 of budget 2) a
click whose execution raises "boom", followed by a model turn with no
actions. -/
theorem loopAux_error_recovery_witness :
    ∃ r, loopAux modelClickThenStop executorFail 2 0
        [{ role := "user", content := .ofText "t" }] [] = .ok r ∧
      r.success = true ∧ r.iterations = 0 + 2 ∧
      r.screenshots = [] ∧
      ({ role := "user", content := MsgContent.ofResults
          [{ tool_use_id := "e1", content := "Error: " ++ "boom", is_error := true }] }
        : Message) ∈ r.messages :=
  loopAux_error_recovery modelClickThenStop executorFail 2 0
    [{ role := "user", content := .ofText "t" }] [] (by decide)
    "e1" { action := some "left_click", coordinate := some [1, 2] } "boom"
    rfl rfl [] rfl rfl

/-- An action name outside the ten kinds has no handler in the map. -/
theorem action_map_eq_none (env : Env) (tool : ComputerUseTool) (action : String)
    (h : action ∉ knownActionKinds) :
    action_map env tool action = none := by
  unfold action_map
  split <;> simp_all [knownActionKinds]

/-- Claim C6: dispatch in `execute_action` — an unknown action kind
fails with the unknown-action error (produced before any handler could
run: no handler exists for it in `action_map`), and when the looked-up
handler raises, the exception is re-raised as the uniform
execution-failure error carrying the action name and the original
cause. -/
theorem execute_action_dispatch (env : Env) (tool : ComputerUseTool)
    (action : String) (params : Params) :
    (action ∉ knownActionKinds →
      execute_action env tool action params = .error ("Unknown action: " ++ action)) ∧
    (∀ handler e, action_map env tool action = some handler →
      handler params = .error e →
      execute_action env tool action params =
        .error ("Failed to execute " ++ action ++ ": " ++ e)) := by
  constructor
  · intro hmem
    simp [execute_action, action_map_eq_none env tool action hmem]
  · intro handler e hsome herr
    simp [execute_action, hsome, herr]

/-- Claim C6 witness: the kind "unknown_kind" fails with the
unknown-action error, and the type handler's exception on empty text is
wrapped with the action name and the original message. -/
theorem execute_action_dispatch_witness :
    execute_action envAuto {} "unknown_kind" {} =
      .error ("Unknown action: " ++ "unknown_kind") ∧
    execute_action envAuto {} "type" {} =
      .error ("Failed to execute " ++ "type" ++ ": " ++ "No text provided to type") :=
  ⟨(execute_action_dispatch envAuto {} "unknown_kind" {}).1 (by decide),
   (execute_action_dispatch envAuto {} "type" {}).2 (_type_text envAuto {})
     "No text provided to type" rfl rfl⟩

/-- Claim C7 counterexample: with the automation backend unavailable,
the type action with an entirely missing text parameter does not fail —
it returns the simulated-success confirmation, refuting the claim that
an empty or missing text always fails with an error. -/
theorem type_empty_text_no_backend_succeeds :
    execute_action envNoAuto {} "type" {} =
      .ok "Text typing simulated (pyautogui not available)" := rfl

/-- Claim C7 (corrected): when the automation backend is available,
executing type with empty or missing text fails with an error (the
handler's exception, re-raised with the action name); with non-empty
text it emits the keystrokes (with a small inter-character delay, a side
effect) and returns a confirmation echoing the first 50 characters of
the text, with "..." appended when the text is longer.  When the backend
is unavailable the action instead degrades to the simulated no-op of
claim C8. -/
theorem type_text_spec (env : Env) (tool : ComputerUseTool) (params : Params)
    (hav : env.pyautogui_available = true) :
    (params.text.getD "" = "" →
      execute_action env tool "type" params =
        .error ("Failed to execute " ++ "type" ++ ": " ++ "No text provided to type")) ∧
    (params.text.getD "" ≠ "" →
      execute_action env tool "type" params =
        .ok ("Typed: " ++ (params.text.getD "").take 50 ++
          (if 50 < (params.text.getD "").length then "..." else ""))) := by
  constructor <;> intro h <;>
    simp [execute_action, action_map, _type_text, hav, h]

/-- Claim C7 witness: with the backend available, missing text fails and
the text "hello" echoes back. -/
theorem type_text_spec_witness :
    execute_action envAuto {} "type" {} =
      .error ("Failed to execute " ++ "type" ++ ": " ++ "No text provided to type") ∧
    execute_action envAuto {} "type" { text := some "hello" } =
      .ok ("Typed: " ++ ("hello" : String).take 50 ++
        (if 50 < ("hello" : String).length then "..." else "")) :=
  ⟨(type_text_spec envAuto {} {} rfl).1 rfl,
   (type_text_spec envAuto {} { text := some "hello" } rfl).2 (by decide)⟩

/-- Claim C8: when pyautogui is unavailable, each of the eight actions
other than screenshot and wait is a no-op returning its simulated
confirmation string and never raising, whatever the parameters; the
screenshot and wait actions behave identically with and without the
backend, since their handlers never consult it. -/
theorem no_backend_degrades (tool : ComputerUseTool) (params : Params) :
    (∀ env : Env, env.pyautogui_available = false →
      ∀ action ∈ degradedActions,
        execute_action env tool action params = .ok (simulatedMessage action)) ∧
    (∀ w h g enc, execute_action ⟨false, w, h, g, enc⟩ tool "screenshot" params =
        execute_action ⟨true, w, h, g, enc⟩ tool "screenshot" params) ∧
    (∀ w h g enc, execute_action ⟨false, w, h, g, enc⟩ tool "wait" params =
        execute_action ⟨true, w, h, g, enc⟩ tool "wait" params) := by
  refine ⟨?_, fun w h g enc => rfl, fun w h g enc => rfl⟩
  intro env hav action hmem
  fin_cases hmem <;>
    simp [execute_action, action_map, _click, _type_text, _press_key, _mouse_move,
      _scroll, _right_click, _double_click, _click_drag, simulatedMessage, hav]

/-- Claim C8 witness: a click with malformed coordinates degrades to the
simulated confirmation, and wait behaves identically with and without
the backend. -/
theorem no_backend_degrades_witness :
    execute_action envNoAuto {} "left_click" { coordinate := some [1, 2, 3] } =
      .ok (simulatedMessage "left_click") ∧
    execute_action ⟨false, 9, 9, .error "g", fun _ => "E"⟩ {} "wait" {} =
      execute_action ⟨true, 9, 9, .error "g", fun _ => "E"⟩ {} "wait" {} :=
  ⟨(no_backend_degrades {} { coordinate := some [1, 2, 3] }).1 envNoAuto rfl
      "left_click" (by decide),
   (no_backend_degrades {} {}).2.2 9 9 (.error "g") (fun _ => "E")⟩

/-- The image `_screenshot` encodes always has exactly the configured
virtual dimensions: either the guard resized it to them, or the guard's
failure means it already had them. -/
theorem screenshot_image_dims (tool : ComputerUseTool) (img : Image) :
    (screenshot_image tool img).width = tool.display_width ∧
    (screenshot_image tool img).height = tool.display_height := by
  unfold screenshot_image
  split
  · exact ⟨rfl, rfl⟩
  · rename_i h
    rw [not_not, Prod.mk.injEq] at h
    exact ⟨h.1, h.2⟩

/-- Every screenshot a turn adds came from a successful execution of the
screenshot action. -/
theorem processBlocks_screenshots_mem (ex : Executor) (bs : List Block) :
    ∀ s ∈ (processBlocks ex bs).2, ∃ p : Params, ex "screenshot" p = .ok s := by
  induction bs with
  | nil =>
    intro s hs
    simp [processBlocks] at hs
  | cons b bs ih =>
    intro s hs
    simp only [processBlocks] at hs
    rw [List.mem_append] at hs
    rcases hs with hs | hs
    · cases b with
      | text t => simp [processBlock] at hs
      | toolUse id input =>
        simp only [processBlock] at hs
        split at hs
        · rename_i result hex
          split at hs
          · rename_i hc
            rw [List.mem_singleton] at hs
            subst hs
            exact ⟨input, by rw [← hc.1]; exact hex⟩
          · simp at hs
        · simp at hs
    · exact ih s hs

/-- Every screenshot in a loop result was already in the accumulator or
came from a successful screenshot execution. -/
theorem loopAux_screenshots_src (model : Model) (ex : Executor) :
    ∀ fuel iterations messages screenshots r,
      loopAux model ex fuel iterations messages screenshots = .ok r →
      ∀ s ∈ r.screenshots, s ∈ screenshots ∨ ∃ p : Params, ex "screenshot" p = .ok s := by
  intro fuel
  induction fuel with
  | zero =>
    intro it msgs shots r hr s hs
    simp only [loopAux] at hr
    obtain rfl := Except.ok.inj hr
    exact Or.inl (by simpa using hs)
  | succ n ih =>
    intro it msgs shots r hr s hs
    simp only [loopAux] at hr
    split at hr
    · exact absurd hr (by simp)
    · rename_i content hm
      split at hr
      · rcases ih _ _ _ _ hr s hs with hmem | hex
        · rcases List.mem_append.mp hmem with h | h
          · exact Or.inl h
          · exact Or.inr (processBlocks_screenshots_mem ex content s h)
        · exact Or.inr hex
      · obtain rfl := Except.ok.inj hr
        rcases List.mem_append.mp (by simpa using hs) with h | h
        · exact Or.inl h
        · exact Or.inr (processBlocks_screenshots_mem ex content s h)

/-- A successful screenshot action returns the data-URI-prefixed
encoding of the (resized) captured image. -/
theorem execute_action_screenshot_ok (env : Env) (tool : ComputerUseTool)
    (p : Params) (s : String)
    (h : execute_action env tool "screenshot" p = .ok s) :
    ∃ img : Image, env.grab = .ok img ∧
      s = "data:image/png;base64," ++ env.encode (screenshot_image tool img) := by
  unfold execute_action action_map _screenshot at h
  cases hg : env.grab with
  | error e =>
    rw [hg] at h
    simp at h
  | ok img =>
    rw [hg] at h
    simp at h
    exact ⟨img, rfl, h.symm⟩

/-- Claim C9: when `execute_task` runs with `ComputerUseTool`'s
`execute_action` as its executor, every entry of the returned
screenshots list is the base64/PNG payload (treated as an opaque
injective encoding) of an image whose dimensions are exactly the
configured virtual display dimensions — the raw capture is resized to
them whenever it does not already match, so decoding the payload
reproduces an image of exactly those dimensions. -/
theorem task_screenshots_virtual_dims (model : Model) (env : Env)
    (tool : ComputerUseTool) (task_prompt : String) (max_iterations : Int)
    (r : TaskResult)
    (hrun : execute_task model (some (fun a p => execute_action env tool a p))
        task_prompt max_iterations = .ok r) :
    ∀ s ∈ r.screenshots, ∃ img : Image, env.grab = .ok img ∧
      s = "data:image/png;base64," ++ env.encode (screenshot_image tool img) ∧
      (screenshot_image tool img).width = tool.display_width ∧
      (screenshot_image tool img).height = tool.display_height := by
  intro s hs
  unfold execute_task at hrun
  rcases loopAux_screenshots_src model _ max_iterations.toNat 0 _ [] r hrun s hs with
    hmem | ⟨p, hp⟩
  · simp at hmem
  · obtain ⟨img, hg, hs'⟩ := execute_action_screenshot_ok env tool p s hp
    exact ⟨img, hg, hs', (screenshot_image_dims tool img).1,
      (screenshot_image_dims tool img).2⟩

/-- Claim C9 witness: a run in which the model takes one screenshot —
the 50 by 60 grab is resized to the 20 by 30 virtual display before
encoding. -/
theorem task_screenshots_virtual_dims_witness :
    ∃ img : Image, envGrab.grab = .ok img ∧
      "data:image/png;base64,X" =
        "data:image/png;base64," ++ envGrab.encode (screenshot_image toolSmall img) ∧
      (screenshot_image toolSmall img).width = toolSmall.display_width ∧
      (screenshot_image toolSmall img).height = toolSmall.display_height :=
  task_screenshots_virtual_dims modelShotOnce envGrab toolSmall "t" 5
    ⟨[⟨"user", .ofText "t"⟩,
      ⟨"assistant", .ofBlocks [Block.toolUse "b1" { action := some "screenshot" }]⟩,
      ⟨"user", .ofResults [⟨"b1", "data:image/png;base64,X", false⟩]⟩,
      ⟨"assistant", .ofBlocks []⟩],
     ["data:image/png;base64,X"], 2, true⟩
    rfl "data:image/png;base64,X" (by decide)

end ComputerUse
